import Mathlib

/-!
Verification development for the sathi-connect-care counseling portal.

The data model follows the SQL migration (tables `profiles`,
`chat_conversations`, `chat_messages`, `appointments` with their
row-level-security policies) and the client components
(`AppointmentDashboard`, `ChatInterface`).

Identifiers are modelled as `Nat`, timestamps as `Int` (milliseconds,
as produced by JavaScript `Date.getTime()`).  Row-level security is
modelled as predicates evaluated by the storage layer; a denied
operation yields `DbError.PolicyDenied` and produces no state change.
-/

namespace Sathi

abbrev UserId := Nat
abbrev ConvId := Nat
abbrev MsgId := Nat
abbrev Timestamp := Int

/-- `user_role` enum from the migration. -/
inductive Role where
  | student
  | counselor
  | admin
deriving DecidableEq, Repr

/-- Row of the `profiles` table (columns relevant to the client logic). -/
structure Profile where
  id : UserId
  email : String
  role : Role
  is_active : Bool
deriving DecidableEq, Repr

/-- `status` column of `chat_conversations`. -/
inductive ConvStatus where
  | active
  | ended
  | archived
deriving DecidableEq, Repr

/-- Row of the `chat_conversations` table. -/
structure Conversation where
  id : ConvId
  student_id : UserId
  counselor_id : UserId
  status : ConvStatus
  last_message_at : Timestamp
deriving DecidableEq, Repr

/-- `message_type` column of `chat_messages`. -/
inductive MessageType where
  | text
  | file
  | image
  | video
deriving DecidableEq, Repr

/-- `status` column of `chat_messages`. -/
inductive MsgStatus where
  | sent
  | delivered
  | read
deriving DecidableEq, Repr

/-- Row of the `chat_messages` table. -/
structure ChatMessage where
  id : MsgId
  conversation_id : ConvId
  sender_id : UserId
  message_type : MessageType
  content : String
  status : MsgStatus
  created_at : Timestamp
deriving DecidableEq, Repr

/-- `appointment_type` column of `appointments`. -/
inductive AppointmentType where
  | chat
  | video
  | in_person
deriving DecidableEq, Repr

/-- `status` column of `appointments`. -/
inductive AppointmentStatus where
  | scheduled
  | confirmed
  | in_progress
  | completed
  | cancelled
deriving DecidableEq, Repr

/-- Row of the `appointments` table. -/
structure Appointment where
  id : Nat
  student_id : UserId
  counselor_id : UserId
  conversation_id : Option ConvId
  appointment_type : AppointmentType
  status : AppointmentStatus
  scheduled_start : Timestamp
  scheduled_end : Timestamp
  meeting_url : Option String
  reason_for_visit : String
  is_emergency : Bool
deriving DecidableEq, Repr

/-- The database: the four tables the client logic touches. -/
structure DB where
  profiles : List Profile
  conversations : List Conversation
  messages : List ChatMessage
  appointments : List Appointment
deriving DecidableEq, Repr

/-- Storage-layer failure: a row-level-security policy rejected the
operation. -/
inductive DbError where
  | PolicyDenied
deriving DecidableEq, Repr

/-! ## Row-level-security policies (from the SQL migration) -/

/-- Policy "Users can view own conversations":
`auth.uid() = student_id OR auth.uid() = counselor_id`. -/
def chat_conversations_select_policy (uid : UserId) (c : Conversation) : Bool :=
  uid == c.student_id || uid == c.counselor_id

/-- Policy "Students can create conversations": `auth.uid() = student_id`. -/
def chat_conversations_insert_policy (uid : UserId) (c : Conversation) : Bool :=
  uid == c.student_id

/-- Policy "Participants can update conversations":
`auth.uid() = student_id OR auth.uid() = counselor_id`. -/
def chat_conversations_update_policy (uid : UserId) (c : Conversation) : Bool :=
  uid == c.student_id || uid == c.counselor_id

/-- Policy "Users can view messages in their conversations": an `EXISTS`
subquery joining to `chat_conversations` on `id = conversation_id` and
requiring `student_id = auth.uid() OR counselor_id = auth.uid()`. -/
def chat_messages_select_policy (uid : UserId) (convs : List Conversation)
    (conversation_id : ConvId) : Bool :=
  convs.any (fun c =>
    c.id == conversation_id && (c.student_id == uid || c.counselor_id == uid))

/-- Policy "Users can insert messages in their conversations":
`auth.uid() = sender_id AND EXISTS (join to the conversation row with
student_id = auth.uid() OR counselor_id = auth.uid())`. -/
def chat_messages_insert_policy (uid : UserId) (convs : List Conversation)
    (m : ChatMessage) : Bool :=
  uid == m.sender_id &&
    convs.any (fun c =>
      c.id == m.conversation_id && (c.student_id == uid || c.counselor_id == uid))

/-- Policy "Users can view own appointments":
`auth.uid() = student_id OR auth.uid() = counselor_id`. -/
def appointments_select_policy (uid : UserId) (a : Appointment) : Bool :=
  uid == a.student_id || uid == a.counselor_id

/-- Policy "Students can create appointments": `auth.uid() = student_id`. -/
def appointments_insert_policy (uid : UserId) (a : Appointment) : Bool :=
  uid == a.student_id

/-- Policy "Participants can update appointments":
`auth.uid() = student_id OR auth.uid() = counselor_id`. -/
def appointments_update_policy (uid : UserId) (a : Appointment) : Bool :=
  uid == a.student_id || uid == a.counselor_id

/-! ## Storage-layer operations guarded by the policies -/

/-- Insert a message row; the storage layer evaluates the INSERT policy
and rejects the write with a policy denial when it fails, leaving the
message store unchanged. -/
def insertMessage (uid : UserId) (db : DB) (m : ChatMessage) :
    Except DbError DB :=
  if chat_messages_insert_policy uid db.conversations m then
    Except.ok { db with messages := db.messages ++ [m] }
  else
    Except.error DbError.PolicyDenied

/-- Read a message row; the SELECT policy joins to the conversation row
and checks that the acting identity is one of its two participants. -/
def readMessage (uid : UserId) (db : DB) (m : ChatMessage) :
    Except DbError ChatMessage :=
  if chat_messages_select_policy uid db.conversations m.conversation_id then
    Except.ok m
  else
    Except.error DbError.PolicyDenied

/-- Read a conversation row under the SELECT policy. -/
def readConversation (uid : UserId) (c : Conversation) :
    Except DbError Conversation :=
  if chat_conversations_select_policy uid c then
    Except.ok c
  else
    Except.error DbError.PolicyDenied

/-- Update a conversation row under the UPDATE policy (the policy's
`USING` clause is evaluated on the existing row). -/
def updateConversation (uid : UserId) (c : Conversation)
    (upd : Conversation → Conversation) : Except DbError Conversation :=
  if chat_conversations_update_policy uid c then
    Except.ok (upd c)
  else
    Except.error DbError.PolicyDenied

/-- Insert a conversation row under the INSERT policy. -/
def insertConversation (uid : UserId) (db : DB) (c : Conversation) :
    Except DbError DB :=
  if chat_conversations_insert_policy uid c then
    Except.ok { db with conversations := db.conversations ++ [c] }
  else
    Except.error DbError.PolicyDenied

/-- Read an appointment row under the SELECT policy. -/
def readAppointment (uid : UserId) (a : Appointment) :
    Except DbError Appointment :=
  if appointments_select_policy uid a then
    Except.ok a
  else
    Except.error DbError.PolicyDenied

/-- Update an appointment row under the UPDATE policy. -/
def updateAppointment (uid : UserId) (a : Appointment)
    (upd : Appointment → Appointment) : Except DbError Appointment :=
  if appointments_update_policy uid a then
    Except.ok (upd a)
  else
    Except.error DbError.PolicyDenied

/-- Insert an appointment row under the INSERT policy. -/
def insertAppointment (uid : UserId) (db : DB) (a : Appointment) :
    Except DbError DB :=
  if appointments_insert_policy uid a then
    Except.ok { db with appointments := db.appointments ++ [a] }
  else
    Except.error DbError.PolicyDenied

/-- Primary-key invariant of `chat_conversations`: `id` is unique. -/
def DB.convIdsUnique (db : DB) : Prop :=
  db.conversations.Pairwise (fun a b => a.id ≠ b.id)

instance (db : DB) : Decidable db.convIdsUnique := by
  unfold DB.convIdsUnique
  infer_instance

/-! ## Query ordering (the client's `.order(...)` clauses)

Insertion sort on an integer key; `sortByKey key` models
`.order(col, ascending)` where `key` reads `col` (negated for a
descending order). -/

def insertByKey {α : Type} (key : α → Int) (x : α) : List α → List α
  | [] => [x]
  | y :: ys => if key x ≤ key y then x :: y :: ys else y :: insertByKey key x ys

def sortByKey {α : Type} (key : α → Int) : List α → List α
  | [] => []
  | x :: xs => insertByKey key x (sortByKey key xs)

/-! ## AppointmentDashboard client logic -/

/-- `canJoinCall` from `AppointmentDashboard`: joinable iff
`now >= scheduled_start - 15 minutes`, `now <= scheduled_end`,
`status !== 'cancelled'` and `appointment_type === 'video'`.
Times are milliseconds, so 15 minutes is `15 * 60000`.  The function is
pure: it reads only the appointment row and the clock value. -/
def canJoinCall (a : Appointment) (now : Timestamp) : Bool :=
  let joinTime := a.scheduled_start - 15 * 60000
  decide (joinTime ≤ now) && decide (now ≤ a.scheduled_end) &&
    !(a.status == AppointmentStatus.cancelled) &&
    (a.appointment_type == AppointmentType.video)

/-- Fresh primary key for an appointment insert (`gen_random_uuid()`
default, modelled as a counter). -/
def freshApptId (db : DB) : Nat :=
  db.appointments.length

/-- The appointment row the client's `createAppointment` submits:
`student_id := profile.id`, remaining values from the form, `status`
left to its column default `'scheduled'`, `conversation_id` unset. -/
def clientAppointmentRow (pid : UserId) (cid : UserId)
    (atype : AppointmentType) (sstart sEnd : Timestamp) (reason : String)
    (emergency : Bool) (now : Timestamp) (newId : Nat) : Appointment :=
  { id := newId
    student_id := pid
    counselor_id := cid
    conversation_id := none
    appointment_type := atype
    status := AppointmentStatus.scheduled
    scheduled_start := sstart
    scheduled_end := sEnd
    meeting_url :=
      if atype == AppointmentType.video then
        some ("https://meet.jit.si/sathi-appointment-" ++ toString now)
      else
        none
    reason_for_visit := reason
    is_emergency := emergency }

/-- `createAppointment` from `AppointmentDashboard`.  The form's
`counselor_id`, `scheduled_start` and `scheduled_end` inputs are either
empty (`none`) or hold a value; the guard
`if (!profile || !counselor_id || !scheduled_start || !scheduled_end) return`
issues no insert when any is missing (result `none`).  Otherwise the
insert is submitted to the storage layer. -/
def createAppointment (profile : Option Profile) (counselor : Option UserId)
    (atype : AppointmentType) (sstart sEnd : Option Timestamp)
    (reason : String) (emergency : Bool) (now : Timestamp) (db : DB) :
    Option (Except DbError DB) :=
  match profile, counselor, sstart, sEnd with
  | some p, some cid, some s, some e =>
      some (insertAppointment p.id db
        (clientAppointmentRow p.id cid atype s e reason emergency now
          (freshApptId db)))
  | _, _, _, _ => none

/-- Role-based scoping of `fetchAppointments`: order by
`scheduled_start` ascending, then filter by `student_id` when
`profile.role === 'student'`, else by `counselor_id`. -/
def fetchAppointments (p : Profile) (db : DB) : List Appointment :=
  let q := sortByKey (fun a => a.scheduled_start) db.appointments
  if p.role == Role.student then
    q.filter (fun a => a.student_id == p.id)
  else
    q.filter (fun a => a.counselor_id == p.id)

/-! ## ChatInterface client logic -/

/-- Role-based scoping of `fetchConversations`: order by
`last_message_at` descending, then filter by `student_id` when
`profile.role === 'student'`, else by `counselor_id`. -/
def fetchConversations (p : Profile) (db : DB) : List Conversation :=
  let q := sortByKey (fun c => -c.last_message_at) db.conversations
  if p.role == Role.student then
    q.filter (fun c => c.student_id == p.id)
  else
    q.filter (fun c => c.counselor_id == p.id)

/-- A message row joined with its sender profile
(`select('*, sender:profiles(*)')`). -/
structure EnrichedMessage where
  msg : ChatMessage
  sender : Option Profile
deriving DecidableEq, Repr

/-- Attach the sender profile to a message row (the `sender:profiles(*)`
join). -/
def enrich (db : DB) (m : ChatMessage) : EnrichedMessage :=
  { msg := m, sender := db.profiles.find? (fun p => p.id == m.sender_id) }

/-- `fetchMessages`: all rows of the conversation, ordered by
`created_at` ascending, each joined with its sender profile. -/
def fetchMessages (db : DB) (conversationId : ConvId) :
    List EnrichedMessage :=
  (sortByKey (fun m => m.created_at)
      (db.messages.filter (fun m => m.conversation_id == conversationId))).map
    (enrich db)

/-- `fetchMessageWithSender`: fetch one row by `id` joined with its
sender profile; `.single()` yields nothing when the row is absent. -/
def fetchMessageWithSender (db : DB) (messageId : MsgId) :
    Option EnrichedMessage :=
  (db.messages.find? (fun m => m.id == messageId)).map (enrich db)

/-- The realtime merge step: on an INSERT event for the subscribed
conversation, the handler calls `fetchMessageWithSender(newMessage.id)`
and appends the result with `setMessages(prev => [...prev, data])`;
when the fetch fails nothing is appended. -/
def handleInsertEvent (db : DB) (messageId : MsgId)
    (prev : List EnrichedMessage) : List EnrichedMessage :=
  match fetchMessageWithSender db messageId with
  | some em => prev ++ [em]
  | none => prev

/-- Fresh primary key for a message insert. -/
def freshMsgId (db : DB) : MsgId :=
  db.messages.length

/-- Whitespace as stripped by JavaScript `String.prototype.trim`. -/
def isJsWhitespace (ch : Char) : Bool :=
  ch == ' ' || ch == '\t' || ch == '\n' || ch == '\r'

/-- JavaScript `.trim()`: strip leading and trailing whitespace. -/
def jsTrim (s : String) : String :=
  String.mk (((s.data.dropWhile isJsWhitespace).reverse.dropWhile
    isJsWhitespace).reverse)

/-- One network call issued by `sendMessage`. -/
inductive ClientOp where
  | insertMsg (conversation_id : ConvId) (sender_id : UserId) (content : String)
  | updateLastMessageAt (conversation_id : ConvId) (ts : Timestamp)
deriving DecidableEq, Repr

/-- The message row `sendMessage` submits: `sender_id := profile.id`,
trimmed content, `message_type: 'text'`; `id`, `status` and
`created_at` come from column defaults (`created_at` is the server
clock at insert time). -/
def clientMessageRow (pid : UserId) (conv : ConvId) (content : String)
    (serverNow : Timestamp) (newId : MsgId) : ChatMessage :=
  { id := newId
    conversation_id := conv
    sender_id := pid
    message_type := MessageType.text
    content := content
    status := MsgStatus.sent
    created_at := serverNow }

/-- The sequence of network calls `sendMessage` issues.  The guard
`if (!(jsTrim newMessage)() || !selectedConversation || !profile) return`
issues nothing.  Otherwise the message insert is issued and awaited;
only when it succeeds is the conversation update issued, carrying
`new Date().toISOString()` — the client clock at that moment
(`clientNow`), not the inserted row's `created_at`. -/
def sendMessageOps (newMessage : String)
    (selectedConversation : Option ConvId) (profile : Option Profile)
    (db : DB) (serverNow clientNow : Timestamp) : List ClientOp :=
  match selectedConversation, profile with
  | some conv, some p =>
      if (jsTrim newMessage) == "" then
        []
      else
        let row := clientMessageRow p.id conv (jsTrim newMessage) serverNow
          (freshMsgId db)
        match insertMessage p.id db row with
        | Except.ok _ =>
            [ClientOp.insertMsg conv p.id (jsTrim newMessage),
             ClientOp.updateLastMessageAt conv clientNow]
        | Except.error _ =>
            [ClientOp.insertMsg conv p.id (jsTrim newMessage)]
  | _, _ => []

/-- The conversation update `sendMessage` issues after a successful
insert: `update({ last_message_at }).eq('id', selectedConversation)`;
the UPDATE policy restricts it to rows where the acting identity is a
participant. -/
def updateConvLastMessage (db : DB) (convId : ConvId) (ts : Timestamp)
    (uid : UserId) : DB :=
  { db with
    conversations := db.conversations.map (fun c =>
      if c.id == convId && chat_conversations_update_policy uid c then
        { c with last_message_at := ts }
      else
        c) }

/-- Database state after a `sendMessage` call: no-op when the guard
fails; on a policy-denied insert the error is caught and no update is
issued; on success the conversation timestamp update follows. -/
def sendMessageRun (newMessage : String)
    (selectedConversation : Option ConvId) (profile : Option Profile)
    (db : DB) (serverNow clientNow : Timestamp) : DB :=
  match selectedConversation, profile with
  | some conv, some p =>
      if (jsTrim newMessage) == "" then
        db
      else
        let row := clientMessageRow p.id conv (jsTrim newMessage) serverNow
          (freshMsgId db)
        match insertMessage p.id db row with
        | Except.ok db' => updateConvLastMessage db' conv clientNow p.id
        | Except.error _ => db
  | _, _ => db

/-! ## Helper lemmas -/

theorem mem_insertByKey {α : Type} (key : α → Int) (x a : α) (l : List α) :
    a ∈ insertByKey key x l ↔ a = x ∨ a ∈ l := by
  induction l with
  | nil => simp [insertByKey]
  | cons y ys ih =>
    by_cases hxy : key x ≤ key y
    · simp [insertByKey, hxy]
    · simp only [insertByKey, if_neg hxy, List.mem_cons, ih]
      tauto

theorem pairwise_insertByKey {α : Type} (key : α → Int) (x : α) (l : List α)
    (h : l.Pairwise (fun a b => key a ≤ key b)) :
    (insertByKey key x l).Pairwise (fun a b => key a ≤ key b) := by
  induction l with
  | nil => simp [insertByKey]
  | cons y ys ih =>
    rcases List.pairwise_cons.mp h with ⟨hy, hys⟩
    by_cases hxy : key x ≤ key y
    · rw [insertByKey, if_pos hxy]
      refine List.pairwise_cons.mpr ⟨?_, h⟩
      intro z hz
      rcases List.mem_cons.mp hz with hz | hz
      · exact hz ▸ hxy
      · exact le_trans hxy (hy z hz)
    · rw [insertByKey, if_neg hxy]
      refine List.pairwise_cons.mpr ⟨?_, ih hys⟩
      intro z hz
      rcases (mem_insertByKey key x z ys).mp hz with hz | hz
      · exact hz ▸ le_of_not_le hxy
      · exact hy z hz

theorem pairwise_sortByKey {α : Type} (key : α → Int) (l : List α) :
    (sortByKey key l).Pairwise (fun a b => key a ≤ key b) := by
  induction l with
  | nil => simp [sortByKey]
  | cons x xs ih => exact pairwise_insertByKey key x (sortByKey key xs) ih

/-- With unique conversation ids, the policy's `EXISTS` subquery over the
conversation table is equivalent to its predicate on the unique row whose
id is referenced. -/
theorem exists_conv_iff (l : List Conversation)
    (hwf : l.Pairwise (fun a b => a.id ≠ b.id)) (c : Conversation)
    (hc : c ∈ l) (P : Conversation → Prop) :
    (∃ c' ∈ l, c'.id = c.id ∧ P c') ↔ P c := by
  constructor
  · rintro ⟨c', hc', hid, hP⟩
    have hcc : c' = c := by
      by_contra hne
      have hsym : Symmetric (fun a b : Conversation => a.id ≠ b.id) :=
        fun _ _ hab h => hab h.symm
      exact List.Pairwise.forall hsym hwf hc' hc hne hid
    exact hcc ▸ hP
  · intro hP
    exact ⟨c, hc, rfl, hP⟩

/-- The message INSERT policy, read through the unique conversation row it
joins to. -/
theorem chat_messages_insert_policy_iff (uid : UserId) (db : DB)
    (m : ChatMessage) (c : Conversation) (hwf : db.convIdsUnique)
    (hc : c ∈ db.conversations) (hid : c.id = m.conversation_id) :
    chat_messages_insert_policy uid db.conversations m = true ↔
      (uid = m.sender_id ∧ (uid = c.student_id ∨ uid = c.counselor_id)) := by
  unfold chat_messages_insert_policy
  simp only [Bool.and_eq_true, List.any_eq_true, Bool.or_eq_true, beq_iff_eq]
  rw [← hid]
  constructor
  · rintro ⟨hsend, hex⟩
    have := (exists_conv_iff db.conversations hwf c hc
      (fun c' => c'.student_id = uid ∨ c'.counselor_id = uid)).mp
      (by simpa using hex)
    exact ⟨hsend, by tauto⟩
  · rintro ⟨hsend, hpart⟩
    refine ⟨hsend, ⟨c, hc, rfl, by tauto⟩⟩

/-- The message SELECT policy, read through the unique conversation row it
joins to. -/
theorem chat_messages_select_policy_iff (uid : UserId) (db : DB)
    (m : ChatMessage) (c : Conversation) (hwf : db.convIdsUnique)
    (hc : c ∈ db.conversations) (hid : c.id = m.conversation_id) :
    chat_messages_select_policy uid db.conversations m.conversation_id = true ↔
      (uid = c.student_id ∨ uid = c.counselor_id) := by
  unfold chat_messages_select_policy
  simp only [List.any_eq_true, Bool.and_eq_true, Bool.or_eq_true, beq_iff_eq]
  rw [← hid]
  constructor
  · intro hex
    have := (exists_conv_iff db.conversations hwf c hc
      (fun c' => c'.student_id = uid ∨ c'.counselor_id = uid)).mp
      (by simpa using hex)
    tauto
  · intro hpart
    exact ⟨c, hc, rfl, by tauto⟩

/-! ## Concrete fixtures (used by witnesses and counterexamples) -/

/-- A conversation between student 10 and counselor 20. -/
def convW : Conversation :=
  { id := 1, student_id := 10, counselor_id := 20,
    status := ConvStatus.active, last_message_at := 0 }

/-- Student profile participating in `convW`. -/
def profS : Profile :=
  { id := 10, email := "student@example.com", role := Role.student,
    is_active := true }

/-- Counselor profile participating in `convW`. -/
def profC : Profile :=
  { id := 20, email := "counselor@example.com", role := Role.counselor,
    is_active := true }

/-- A third profile, not a participant of `convW`. -/
def profT : Profile :=
  { id := 30, email := "third@example.com", role := Role.student,
    is_active := true }

/-- The "Hello" message sent by the student in `convW`. -/
def msgW : ChatMessage :=
  { id := 0, conversation_id := 1, sender_id := 10,
    message_type := MessageType.text, content := "Hello",
    status := MsgStatus.sent, created_at := 100 }

/-- Database holding the three profiles, `convW` and `msgW`. -/
def dbW : DB :=
  { profiles := [profS, profC, profT], conversations := [convW],
    messages := [msgW], appointments := [] }

/-! ## Claims about the access-control layer -/

/-- Claim C1: for every message M inserted into conversation C, the
insert is permitted iff the acting identity equals `M.sender_id` and is
`C.student_id` or `C.counselor_id`; a violating insert is rejected with
a policy denial, and a successful insert appends exactly M, so a denial
leaves the message store unchanged. -/
theorem C1_message_insert_policy (uid : UserId) (db : DB) (m : ChatMessage)
    (c : Conversation) (hwf : db.convIdsUnique) (hc : c ∈ db.conversations)
    (hid : c.id = m.conversation_id) :
    ((∃ db', insertMessage uid db m = Except.ok db') ↔
      (uid = m.sender_id ∧ (uid = c.student_id ∨ uid = c.counselor_id)))
    ∧ (∀ db', insertMessage uid db m = Except.ok db' →
        db'.messages = db.messages ++ [m])
    ∧ (insertMessage uid db m = Except.error DbError.PolicyDenied ↔
        ¬(uid = m.sender_id ∧ (uid = c.student_id ∨ uid = c.counselor_id))) := by
  have hiff := chat_messages_insert_policy_iff uid db m c hwf hc hid
  by_cases hpol : chat_messages_insert_policy uid db.conversations m = true
  · have hok : insertMessage uid db m =
        Except.ok { db with messages := db.messages ++ [m] } := by
      simp [insertMessage, hpol]
    refine ⟨⟨fun _ => hiff.mp hpol, fun _ => ⟨_, hok⟩⟩, ?_, ?_⟩
    · intro db' hdb'
      rw [hok] at hdb'
      cases hdb'
      rfl
    · rw [hok]
      constructor
      · intro h
        exact absurd h (by simp)
      · intro hneg
        exact absurd (hiff.mp hpol) hneg
  · have herr : insertMessage uid db m = Except.error DbError.PolicyDenied := by
      simp [insertMessage, hpol]
    refine ⟨?_, ?_, ?_⟩
    · rw [herr]
      constructor
      · rintro ⟨db', hdb'⟩
        exact absurd hdb' (by simp)
      · intro h
        exact absurd (hiff.mpr h) hpol
    · intro db' hdb'
      rw [herr] at hdb'
      exact absurd hdb' (by simp)
    · rw [herr]
      exact ⟨fun _ h => hpol (hiff.mpr h), fun _ => rfl⟩

/-- Witness for C1: the student's own message into `convW` is accepted;
a message with `sender_id = 30` (a non-participant) is rejected with a
policy denial. -/
theorem C1_message_insert_policy_witness :
    (∃ db', insertMessage 10 dbW
      { id := 5, conversation_id := 1, sender_id := 10,
        message_type := MessageType.text, content := "hi",
        status := MsgStatus.sent, created_at := 200 } = Except.ok db')
    ∧ insertMessage 30 dbW
      { id := 6, conversation_id := 1, sender_id := 30,
        message_type := MessageType.text, content := "intrude",
        status := MsgStatus.sent, created_at := 201 } =
        Except.error DbError.PolicyDenied :=
  ⟨(C1_message_insert_policy 10 dbW
      { id := 5, conversation_id := 1, sender_id := 10,
        message_type := MessageType.text, content := "hi",
        status := MsgStatus.sent, created_at := 200 } convW (by decide)
      (by decide) (by decide)).1.mpr (by decide),
   (C1_message_insert_policy 30 dbW
      { id := 6, conversation_id := 1, sender_id := 30,
        message_type := MessageType.text, content := "intrude",
        status := MsgStatus.sent, created_at := 201 } convW (by decide)
      (by decide) (by decide)).2.2.mpr (by decide)⟩

/-- Claim C2: reading a message M of conversation C succeeds iff the
acting identity equals `C.student_id` or `C.counselor_id` (the policy
joins to the conversation row); any third profile's read fails with a
policy denial. -/
theorem C2_message_read_policy (uid : UserId) (db : DB) (m : ChatMessage)
    (c : Conversation) (hwf : db.convIdsUnique) (hc : c ∈ db.conversations)
    (hid : c.id = m.conversation_id) :
    (readMessage uid db m = Except.ok m ↔
      (uid = c.student_id ∨ uid = c.counselor_id))
    ∧ (readMessage uid db m = Except.error DbError.PolicyDenied ↔
      ¬(uid = c.student_id ∨ uid = c.counselor_id)) := by
  have hiff := chat_messages_select_policy_iff uid db m c hwf hc hid
  by_cases hpol :
      chat_messages_select_policy uid db.conversations m.conversation_id = true
  · have hok : readMessage uid db m = Except.ok m := by
      simp [readMessage, hpol]
    rw [hok]
    exact ⟨⟨fun _ => hiff.mp hpol, fun _ => rfl⟩,
      ⟨fun h => absurd h (by simp), fun h => absurd (hiff.mp hpol) h⟩⟩
  · have herr : readMessage uid db m = Except.error DbError.PolicyDenied := by
      simp [readMessage, hpol]
    rw [herr]
    exact ⟨⟨fun h => absurd h (by simp), fun h => absurd (hiff.mpr h) hpol⟩,
      ⟨fun _ h => hpol (hiff.mpr h), fun _ => rfl⟩⟩

/-- Witness for C2: the counselor (20) and student (10) can read the
"Hello" message of `convW`; the third profile (30) gets a policy
denial. -/
theorem C2_message_read_policy_witness :
    readMessage 20 dbW msgW = Except.ok msgW ∧
    readMessage 10 dbW msgW = Except.ok msgW ∧
    readMessage 30 dbW msgW = Except.error DbError.PolicyDenied :=
  ⟨(C2_message_read_policy 20 dbW msgW convW (by decide) (by decide)
      (by decide)).1.mpr (by decide),
   (C2_message_read_policy 10 dbW msgW convW (by decide) (by decide)
      (by decide)).1.mpr (by decide),
   (C2_message_read_policy 30 dbW msgW convW (by decide) (by decide)
      (by decide)).2.mpr (by decide)⟩

/-- A policy-guarded operation succeeds exactly when the policy holds
and yields a policy denial exactly when it does not. -/
theorem guard_iff {β : Type} (b : Bool) (P : Prop) (x : β) (h : b = true ↔ P) :
    ((if b then Except.ok x else Except.error DbError.PolicyDenied) =
        Except.ok x ↔ P)
    ∧ ((if b then Except.ok x else Except.error DbError.PolicyDenied) =
        Except.error DbError.PolicyDenied ↔ ¬P) := by
  cases b <;> simp_all

/-- A policy-guarded insert produces a state with the row appended
exactly when the policy holds. -/
theorem guard_exists_iff {β : Type} (b : Bool) (P : Prop) (x : β)
    (Q : β → Prop) (h : b = true ↔ P) (hx : Q x) :
    ((∃ y, (if b then Except.ok x else Except.error DbError.PolicyDenied) =
        Except.ok y ∧ Q y) ↔ P) := by
  cases b <;> simp_all

theorem chat_conversations_select_policy_iff (uid : UserId)
    (c : Conversation) :
    chat_conversations_select_policy uid c = true ↔
      (uid = c.student_id ∨ uid = c.counselor_id) := by
  simp [chat_conversations_select_policy]

theorem chat_conversations_update_policy_iff (uid : UserId)
    (c : Conversation) :
    chat_conversations_update_policy uid c = true ↔
      (uid = c.student_id ∨ uid = c.counselor_id) := by
  simp [chat_conversations_update_policy]

theorem chat_conversations_insert_policy_iff (uid : UserId)
    (c : Conversation) :
    chat_conversations_insert_policy uid c = true ↔ uid = c.student_id := by
  simp [chat_conversations_insert_policy]

theorem appointments_select_policy_iff (uid : UserId) (a : Appointment) :
    appointments_select_policy uid a = true ↔
      (uid = a.student_id ∨ uid = a.counselor_id) := by
  simp [appointments_select_policy]

theorem appointments_update_policy_iff (uid : UserId) (a : Appointment) :
    appointments_update_policy uid a = true ↔
      (uid = a.student_id ∨ uid = a.counselor_id) := by
  simp [appointments_update_policy]

theorem appointments_insert_policy_iff (uid : UserId) (a : Appointment) :
    appointments_insert_policy uid a = true ↔ uid = a.student_id := by
  simp [appointments_insert_policy]

/-- Claim C3: for every conversation and appointment row, read and
update are permitted iff the acting identity equals the row's
`student_id` or `counselor_id`, and insert is permitted iff the acting
identity equals the row's `student_id`; every other attempt is rejected
by the storage layer with a policy denial. -/
theorem C3_conversation_appointment_policies (uid : UserId)
    (c : Conversation) (a : Appointment) (db : DB)
    (updC : Conversation → Conversation) (updA : Appointment → Appointment) :
    (readConversation uid c = Except.ok c ↔
      (uid = c.student_id ∨ uid = c.counselor_id))
    ∧ (readConversation uid c = Except.error DbError.PolicyDenied ↔
      ¬(uid = c.student_id ∨ uid = c.counselor_id))
    ∧ (updateConversation uid c updC = Except.ok (updC c) ↔
      (uid = c.student_id ∨ uid = c.counselor_id))
    ∧ (updateConversation uid c updC = Except.error DbError.PolicyDenied ↔
      ¬(uid = c.student_id ∨ uid = c.counselor_id))
    ∧ ((∃ db', insertConversation uid db c = Except.ok db' ∧
        db'.conversations = db.conversations ++ [c]) ↔ uid = c.student_id)
    ∧ (insertConversation uid db c = Except.error DbError.PolicyDenied ↔
      ¬uid = c.student_id)
    ∧ (readAppointment uid a = Except.ok a ↔
      (uid = a.student_id ∨ uid = a.counselor_id))
    ∧ (readAppointment uid a = Except.error DbError.PolicyDenied ↔
      ¬(uid = a.student_id ∨ uid = a.counselor_id))
    ∧ (updateAppointment uid a updA = Except.ok (updA a) ↔
      (uid = a.student_id ∨ uid = a.counselor_id))
    ∧ (updateAppointment uid a updA = Except.error DbError.PolicyDenied ↔
      ¬(uid = a.student_id ∨ uid = a.counselor_id))
    ∧ ((∃ db', insertAppointment uid db a = Except.ok db' ∧
        db'.appointments = db.appointments ++ [a]) ↔ uid = a.student_id)
    ∧ (insertAppointment uid db a = Except.error DbError.PolicyDenied ↔
      ¬uid = a.student_id) := by
  unfold readConversation updateConversation insertConversation
    readAppointment updateAppointment insertAppointment
  exact ⟨(guard_iff _ _ _ (chat_conversations_select_policy_iff uid c)).1,
    (guard_iff _ _ _ (chat_conversations_select_policy_iff uid c)).2,
    (guard_iff _ _ _ (chat_conversations_update_policy_iff uid c)).1,
    (guard_iff _ _ _ (chat_conversations_update_policy_iff uid c)).2,
    guard_exists_iff _ _ _ _ (chat_conversations_insert_policy_iff uid c) rfl,
    (guard_iff _ _ _ (chat_conversations_insert_policy_iff uid c)).2,
    (guard_iff _ _ _ (appointments_select_policy_iff uid a)).1,
    (guard_iff _ _ _ (appointments_select_policy_iff uid a)).2,
    (guard_iff _ _ _ (appointments_update_policy_iff uid a)).1,
    (guard_iff _ _ _ (appointments_update_policy_iff uid a)).2,
    guard_exists_iff _ _ _ _ (appointments_insert_policy_iff uid a) rfl,
    (guard_iff _ _ _ (appointments_insert_policy_iff uid a)).2⟩

/-! ## Claim C4: the join-window gate -/

/-- The spec's join-window scenario appointment: `scheduled_start = T`,
`scheduled_end = T + 30m`, type video, status scheduled. -/
def scenarioAppointment (T : Timestamp) : Appointment :=
  { id := 0, student_id := 10, counselor_id := 20, conversation_id := none,
    appointment_type := AppointmentType.video,
    status := AppointmentStatus.scheduled,
    scheduled_start := T, scheduled_end := T + 30 * 60000,
    meeting_url := none, reason_for_visit := "", is_emergency := false }

/-- Claim C4: `canJoinCall(A, t)` is true iff
`t ≥ A.scheduled_start − 15 minutes`, `t ≤ A.scheduled_end`,
`A.status ≠ cancelled` and `A.appointment_type = video`; on the
scenario appointment it is true throughout `[T − 15m, T + 30m]` and
false at `T − 16m`, at `T + 31m`, and whenever status is cancelled.
The result depends only on the appointment row and the clock value. -/
theorem C4_canJoinCall (a : Appointment) (now T t : Timestamp) :
    (canJoinCall a now = true ↔
      (a.scheduled_start - 15 * 60000 ≤ now ∧ now ≤ a.scheduled_end ∧
        a.status ≠ AppointmentStatus.cancelled ∧
        a.appointment_type = AppointmentType.video))
    ∧ (T - 15 * 60000 ≤ t → t ≤ T + 30 * 60000 →
        canJoinCall (scenarioAppointment T) t = true)
    ∧ canJoinCall (scenarioAppointment T) (T - 16 * 60000) = false
    ∧ canJoinCall (scenarioAppointment T) (T + 31 * 60000) = false
    ∧ canJoinCall
        { scenarioAppointment T with status := AppointmentStatus.cancelled }
        t = false := by
  have hmain : ∀ (b : Appointment) (n : Timestamp), canJoinCall b n = true ↔
      (b.scheduled_start - 15 * 60000 ≤ n ∧ n ≤ b.scheduled_end ∧
        b.status ≠ AppointmentStatus.cancelled ∧
        b.appointment_type = AppointmentType.video) := by
    intro b n
    unfold canJoinCall
    simp only [Bool.and_eq_true, decide_eq_true_eq, Bool.not_eq_true',
      beq_eq_false_iff_ne, beq_iff_eq]
    tauto
  refine ⟨hmain a now, ?_, ?_, ?_, ?_⟩
  · intro h1 h2
    refine (hmain _ t).mpr ⟨?_, ?_, by simp [scenarioAppointment],
      by simp [scenarioAppointment]⟩
    · simpa [scenarioAppointment] using h1
    · simpa [scenarioAppointment] using h2
  · refine Bool.eq_false_iff.mpr ?_
    intro h
    have h1 := ((hmain _ _).mp h).1
    have hs : (scenarioAppointment T).scheduled_start = T := rfl
    rw [hs] at h1
    linarith
  · refine Bool.eq_false_iff.mpr ?_
    intro h
    have h2 := ((hmain _ _).mp h).2.1
    have he : (scenarioAppointment T).scheduled_end = T + 30 * 60000 := rfl
    rw [he] at h2
    linarith
  · refine Bool.eq_false_iff.mpr ?_
    intro h
    have h3 := ((hmain _ _).mp h).2.2.1
    simp [scenarioAppointment] at h3

/-- Witness for C4: at `T = 0` the scenario appointment is joinable at
`t = 0` and not joinable one minute before the window opens. -/
theorem C4_canJoinCall_witness :
    canJoinCall (scenarioAppointment 0) 0 = true ∧
    canJoinCall (scenarioAppointment 0) (0 - 16 * 60000) = false :=
  ⟨(C4_canJoinCall (scenarioAppointment 0) 0 0 0).2.1 (by decide) (by decide),
   (C4_canJoinCall (scenarioAppointment 0) 0 0 0).2.2.1⟩

/-! ## Claim C5: the scheduled_start < scheduled_end invariant

The `appointments` table carries no `CHECK (scheduled_start <
scheduled_end)` constraint, its INSERT policy checks only
`auth.uid() = student_id`, and the client's `createAppointment` only
requires the profile, counselor, start and end fields to be present.
So a create with `scheduled_start ≥ scheduled_end` is accepted. -/

/-- Counterexample to C5: student 10 creates an appointment with
`scheduled_start = 1000` and `scheduled_end = 500`; the create is
accepted and the stored row has its end strictly before its start. -/
theorem C5_counterexample :
    createAppointment (some profS) (some 20) AppointmentType.video
        (some 1000) (some 500) "" false 0 dbW =
      some (Except.ok { dbW with appointments :=
        [clientAppointmentRow 10 20 AppointmentType.video 1000 500 "" false
          0 0] })
    ∧ (clientAppointmentRow 10 20 AppointmentType.video 1000 500 "" false
        0 0).scheduled_end <
      (clientAppointmentRow 10 20 AppointmentType.video 1000 500 "" false
        0 0).scheduled_start := by
  exact ⟨rfl, by decide⟩

/-- Claim C5 as amended: no layer checks the order of the two
timestamps.  A create whose profile, counselor, start and end are all
present is accepted whatever the relation between `scheduled_start` and
`scheduled_end`, and stores both values unchanged; a create missing any
required field issues no insert; and the storage layer accepts a
participant's update setting arbitrary times. -/
theorem C5_amended_no_time_order_check (p : Profile) (cid : UserId)
    (atype : AppointmentType) (s e : Timestamp) (reason : String)
    (emergency : Bool) (now : Timestamp) (db : DB) :
    (∃ db', createAppointment (some p) (some cid) atype (some s) (some e)
        reason emergency now db = some (Except.ok db')
      ∧ db'.appointments = db.appointments ++
          [clientAppointmentRow p.id cid atype s e reason emergency now
            (freshApptId db)]
      ∧ (clientAppointmentRow p.id cid atype s e reason emergency now
          (freshApptId db)).scheduled_start = s
      ∧ (clientAppointmentRow p.id cid atype s e reason emergency now
          (freshApptId db)).scheduled_end = e)
    ∧ (∀ cOpt sOpt eOpt, createAppointment none cOpt atype sOpt eOpt reason
        emergency now db = none)
    ∧ createAppointment (some p) none atype (some s) (some e) reason
        emergency now db = none
    ∧ createAppointment (some p) (some cid) atype none (some e) reason
        emergency now db = none
    ∧ createAppointment (some p) (some cid) atype (some s) none reason
        emergency now db = none
    ∧ (∀ (a : Appointment), updateAppointment a.student_id a
        (fun r => { r with scheduled_start := s, scheduled_end := e }) =
        Except.ok { a with scheduled_start := s, scheduled_end := e }) := by
  refine ⟨⟨{ db with appointments := db.appointments ++
      [clientAppointmentRow p.id cid atype s e reason emergency now
        (freshApptId db)] }, ?_, rfl, rfl, rfl⟩, ?_, rfl, rfl, rfl, ?_⟩
  · simp [createAppointment, insertAppointment, appointments_insert_policy,
      clientAppointmentRow]
  · intro cOpt sOpt eOpt
    rfl
  · intro a
    simp [updateAppointment, appointments_update_policy]

/-! ## Claim C6: the two-step write in sendMessage

The update issued after a successful insert carries
`new Date().toISOString()` — the client clock at the moment the update
is issued — while the inserted row's `created_at` is the server clock
at insert time; the two values need not coincide. -/

/-- Counterexample to C6 as stated: with server clock 100 at insert and
client clock 105 at the update, the update sets `last_message_at = 105`
while the inserted message's timestamp is 100. -/
theorem C6_counterexample :
    sendMessageOps "hi" (some 1) (some profS) dbW 100 105 =
      [ClientOp.insertMsg 1 10 "hi", ClientOp.updateLastMessageAt 1 105]
    ∧ (sendMessageRun "hi" (some 1) (some profS) dbW 100 105).messages =
        dbW.messages ++ [clientMessageRow 10 1 "hi" 100 1]
    ∧ (clientMessageRow 10 1 "hi" 100 1).created_at = 100
    ∧ (sendMessageRun "hi" (some 1) (some profS) dbW 100 105).conversations =
        [{ convW with last_message_at := 105 }]
    ∧ (105 : Timestamp) ≠ 100 := by
  refine ⟨by decide, by decide, rfl, by decide, by decide⟩

/-- Claim C6 as amended: every successful message insert issued by
`sendMessage` is followed by an update of the owning conversation's
`last_message_at` to the client's current time at the moment the update
is issued (not necessarily the inserted message's stored timestamp);
the update is issued only after the insert has completed, and if the
insert fails no conversation update is issued. -/
theorem C6_amended_sendMessage_sequencing (msg : String) (conv : ConvId)
    (p : Profile) (db : DB) (serverNow clientNow : Timestamp)
    (c : Conversation) (hwf : db.convIdsUnique) (hc : c ∈ db.conversations)
    (hid : c.id = conv) (hne : ¬(jsTrim msg) = "") :
    ((p.id = c.student_id ∨ p.id = c.counselor_id) →
      sendMessageOps msg (some conv) (some p) db serverNow clientNow =
        [ClientOp.insertMsg conv p.id (jsTrim msg),
         ClientOp.updateLastMessageAt conv clientNow]
      ∧ (sendMessageRun msg (some conv) (some p) db serverNow
          clientNow).messages = db.messages ++
            [clientMessageRow p.id conv (jsTrim msg) serverNow (freshMsgId db)]
      ∧ (clientMessageRow p.id conv (jsTrim msg) serverNow
          (freshMsgId db)).created_at = serverNow
      ∧ ∃ c' ∈ (sendMessageRun msg (some conv) (some p) db serverNow
          clientNow).conversations,
          c'.id = c.id ∧ c'.last_message_at = clientNow)
    ∧ (¬(p.id = c.student_id ∨ p.id = c.counselor_id) →
      sendMessageOps msg (some conv) (some p) db serverNow clientNow =
        [ClientOp.insertMsg conv p.id (jsTrim msg)]
      ∧ sendMessageRun msg (some conv) (some p) db serverNow clientNow = db) := by
  have hpol := chat_messages_insert_policy_iff p.id db
    (clientMessageRow p.id conv (jsTrim msg) serverNow (freshMsgId db)) c hwf hc hid
  have htrim : ((jsTrim msg) == "") = false := beq_eq_false_iff_ne.mpr hne
  constructor
  · intro hpart
    have hp : chat_messages_insert_policy p.id db.conversations
        (clientMessageRow p.id conv (jsTrim msg) serverNow (freshMsgId db)) =
        true := hpol.mpr ⟨rfl, hpart⟩
    have hcond : ∀ c'' : Conversation, c'' = c →
        (c''.id == conv && chat_conversations_update_policy p.id c'') = true := by
      rintro c'' rfl
      rcases hpart with hB | hB <;>
        simp [chat_conversations_update_policy, hid, ← hB]
    refine ⟨?_, ?_, rfl, ?_⟩
    · simp [sendMessageOps, htrim, insertMessage, hp]
    · simp [sendMessageRun, htrim, insertMessage, hp, updateConvLastMessage]
    · have hrun : sendMessageRun msg (some conv) (some p) db serverNow
          clientNow = updateConvLastMessage
            { db with messages := db.messages ++
              [clientMessageRow p.id conv (jsTrim msg) serverNow (freshMsgId db)] }
            conv clientNow p.id := by
        simp [sendMessageRun, htrim, insertMessage, hp]
      rw [hrun]
      refine ⟨{ c with last_message_at := clientNow }, ?_, rfl, rfl⟩
      unfold updateConvLastMessage
      refine List.mem_map.mpr ⟨c, hc, ?_⟩
      rw [hcond c rfl]
      simp
  · intro hpart
    have hp : chat_messages_insert_policy p.id db.conversations
        (clientMessageRow p.id conv (jsTrim msg) serverNow (freshMsgId db)) =
        false := by
      cases hb : chat_messages_insert_policy p.id db.conversations
          (clientMessageRow p.id conv (jsTrim msg) serverNow (freshMsgId db))
      · rfl
      · exact absurd (hpol.mp hb).2 hpart
    exact ⟨by simp [sendMessageOps, htrim, insertMessage, hp],
      by simp [sendMessageRun, htrim, insertMessage, hp]⟩

/-- Witness for C6 (amended): the student sends "hi" in `convW`; the
insert op is followed by the timestamp update op carrying the client
clock 105. -/
theorem C6_amended_witness :
    sendMessageOps "hi" (some 1) (some profS) dbW 100 105 =
      [ClientOp.insertMsg 1 10 "hi", ClientOp.updateLastMessageAt 1 105] :=
  ((C6_amended_sendMessage_sequencing "hi" 1 profS dbW 100 105 convW
    (by decide) (by decide) (by decide) (by decide)).1 (by decide)).1

/-! ## Claims C7 and C8: the realtime merge protocol -/

/-- Claim C7: on each realtime insert notification the client fetches
the row by id enriched with the sender profile and appends it to the
end of the local ordered list (the previously loaded history is kept,
in order, as a prefix), and the history itself is loaded in ascending
order of creation time. -/
theorem C7_realtime_merge_appends (db : DB) (msgId : MsgId)
    (prev : List EnrichedMessage) (convId : ConvId) :
    handleInsertEvent db msgId prev =
      prev ++ (fetchMessageWithSender db msgId).toList
    ∧ (fetchMessages db convId).Pairwise
        (fun x y => x.msg.created_at ≤ y.msg.created_at) := by
  constructor
  · unfold handleInsertEvent
    cases h : fetchMessageWithSender db msgId <;> simp
  · unfold fetchMessages
    refine List.Pairwise.map _ ?_ (pairwise_sortByKey _ _)
    intro a b hab
    exact hab

/-- Claim C8: the merge step performs no duplicate suppression, so
delivering the same insert notification twice appends the same enriched
row twice: the count of entries carrying that message id grows by
two. -/
theorem C8_merge_not_idempotent (db : DB) (i : MsgId)
    (prev : List EnrichedMessage) (em : EnrichedMessage)
    (h : fetchMessageWithSender db i = some em) :
    handleInsertEvent db i (handleInsertEvent db i prev) =
      prev ++ [em] ++ [em]
    ∧ em.msg.id = i
    ∧ ((prev ++ [em] ++ [em]).filter (fun e => e.msg.id == i)).length =
        (prev.filter (fun e => e.msg.id == i)).length + 2 := by
  have hid : em.msg.id = i := by
    unfold fetchMessageWithSender at h
    cases hf : db.messages.find? (fun m => m.id == i) with
    | none =>
      rw [hf] at h
      exact absurd h (by simp)
    | some m =>
      rw [hf] at h
      have hm : (m.id == i) = true := by
        have h0 := List.find?_some hf
        simpa using h0
      have hem : em = enrich db m := by
        simpa using h.symm
      rw [hem]
      exact beq_iff_eq.mp hm
  refine ⟨?_, hid, ?_⟩
  · simp [handleInsertEvent, h]
  · rw [List.filter_append, List.filter_append]
    simp [hid]

/-- Witness for C8: delivering the notification for message 0 of `dbW`
twice to the empty local list yields two copies of the enriched row. -/
theorem C8_merge_not_idempotent_witness :
    handleInsertEvent dbW 0 (handleInsertEvent dbW 0 []) =
      ([] : List EnrichedMessage) ++ [⟨msgW, some profS⟩] ++
        [⟨msgW, some profS⟩] :=
  (C8_merge_not_idempotent dbW 0 [] ⟨msgW, some profS⟩ (by decide)).1

/-! ## Claim C9: role-based query scoping -/

/-- An admin profile. -/
def profAdmin : Profile :=
  { id := 40, email := "admin@example.com", role := Role.admin,
    is_active := true }

/-- An appointment whose counselor is the admin profile. -/
def apptA : Appointment :=
  { id := 1, student_id := 10, counselor_id := 40, conversation_id := none,
    appointment_type := AppointmentType.video,
    status := AppointmentStatus.scheduled, scheduled_start := 100,
    scheduled_end := 200, meeting_url := none, reason_for_visit := "",
    is_emergency := false }

/-- An appointment between student 10 and counselor 20. -/
def apptB : Appointment :=
  { id := 2, student_id := 10, counselor_id := 20, conversation_id := none,
    appointment_type := AppointmentType.chat,
    status := AppointmentStatus.scheduled, scheduled_start := 50,
    scheduled_end := 150, meeting_url := none, reason_for_visit := "",
    is_emergency := false }

/-- Database with two appointments and one conversation, used to witness
the role-based scoping. -/
def dbA : DB :=
  { profiles := [profAdmin, profS, profC], conversations := [convW],
    messages := [], appointments := [apptA, apptB] }

/-- Claim C9: every profile whose role is not `student` — `admin`
included — scopes the appointment and conversation list queries by
`counselor_id = profile.id`; only role `student` scopes by
`student_id`.  There is no separate branch for admins. -/
theorem C9_nonstudent_scopes_by_counselor (p : Profile) (db : DB) :
    (p.role ≠ Role.student →
      fetchAppointments p db =
        (sortByKey (fun a => a.scheduled_start) db.appointments).filter
          (fun a => a.counselor_id == p.id)
      ∧ fetchConversations p db =
        (sortByKey (fun c => -c.last_message_at) db.conversations).filter
          (fun c => c.counselor_id == p.id))
    ∧ (p.role = Role.student →
      fetchAppointments p db =
        (sortByKey (fun a => a.scheduled_start) db.appointments).filter
          (fun a => a.student_id == p.id)
      ∧ fetchConversations p db =
        (sortByKey (fun c => -c.last_message_at) db.conversations).filter
          (fun c => c.student_id == p.id)) := by
  constructor
  · intro h
    have hb : (p.role == Role.student) = false := beq_eq_false_iff_ne.mpr h
    exact ⟨by simp [fetchAppointments, hb], by simp [fetchConversations, hb]⟩
  · intro h
    have hb : (p.role == Role.student) = true := beq_iff_eq.mpr h
    exact ⟨by simp [fetchAppointments, hb], by simp [fetchConversations, hb]⟩

/-- Witness for C9: the admin profile's queries are scoped by
`counselor_id = 40`, exactly like a counselor's. -/
theorem C9_nonstudent_scopes_by_counselor_witness :
    fetchAppointments profAdmin dbA =
      (sortByKey (fun a => a.scheduled_start) dbA.appointments).filter
        (fun a => a.counselor_id == profAdmin.id)
    ∧ fetchConversations profAdmin dbA =
      (sortByKey (fun c => -c.last_message_at) dbA.conversations).filter
        (fun c => c.counselor_id == profAdmin.id) :=
  (C9_nonstudent_scopes_by_counselor profAdmin dbA).1 (by decide)

/-! ## Claim C10: the sendMessage guard -/

/-- Claim C10: when the trimmed text is empty, no conversation is
selected or no profile is loaded, `sendMessage` issues no network call
and leaves the store unchanged. -/
theorem C10_sendMessage_noop (msg : String) (sc : Option ConvId)
    (prof : Option Profile) (db : DB) (serverNow clientNow : Timestamp)
    (h : (jsTrim msg) = "" ∨ sc = none ∨ prof = none) :
    sendMessageOps msg sc prof db serverNow clientNow = []
    ∧ sendMessageRun msg sc prof db serverNow clientNow = db := by
  rcases h with h | h | h
  · cases sc <;> cases prof <;>
      simp [sendMessageOps, sendMessageRun, h]
  · subst h
    simp [sendMessageOps, sendMessageRun]
  · subst h
    cases sc <;> simp [sendMessageOps, sendMessageRun]

/-- Witness for C10: an empty input with a selected conversation and a
loaded profile issues nothing and changes nothing. -/
theorem C10_sendMessage_noop_witness :
    sendMessageOps "" (some 1) (some profS) dbW 0 0 = []
    ∧ sendMessageRun "" (some 1) (some profS) dbW 0 0 = dbW :=
  C10_sendMessage_noop "" (some 1) (some profS) dbW 0 0 (Or.inl (by decide))

end Sathi
